import Mathlib

/-!
# ESP-Weather: the `Secrets` constants table

Shallow embedding of `src/main/secrets.hpp`.  The header declares six
`inline constexpr static` constants inside `namespace Secrets`: five C string
literals (`const char*`) and one `uint16_t`.  C string literals are embedded
as `String` (their `strlen` is `String.utf8ByteSize`), the `uint16_t` constant
as a natural number below `2 ^ 16`.
-/

/-- Number of values of the C++ type `uint16_t` (from `<cstdint>`): `2 ^ 16`. -/
def UINT16_SIZE : Nat := 2 ^ 16

/-- Membership in the value set of `uint16_t`: the naturals below `2 ^ 16`. -/
def IsUint16 (p : Nat) : Prop := p < UINT16_SIZE

instance (p : Nat) : Decidable (IsUint16 p) := by
  unfold IsUint16; exact inferInstance

/-- Integral conversion of an integer value to `uint16_t`: the value is
reduced modulo `2 ^ 16`. -/
def toUint16 (n : Int) : Nat := (n % (UINT16_SIZE : Int)).toNat

/-- Byte length of a C string (what `strlen` returns on the literal). -/
def strlen (s : String) : Nat := s.utf8ByteSize

namespace Secrets

/-- `inline constexpr static const char* WiFiSSID = "<REPLACE>";` -/
def WiFiSSID : String := "<REPLACE>"

/-- `inline constexpr static const char* WiFiPassword = "<REPLACE>";` -/
def WiFiPassword : String := "<REPLACE>"

/-- `inline constexpr static const char* MQTTBroker = "test.mosquitto.org";` -/
def MQTTBroker : String := "test.mosquitto.org"

/-- `inline constexpr static const uint16_t MQTTPort = 1883;` -/
def MQTTPort : Nat := 1883

/-- `inline constexpr static const char* MQTTUsername = "";` -/
def MQTTUsername : String := ""

/-- `inline constexpr static const char* MQTTPassword = "";` -/
def MQTTPassword : String := ""

end Secrets

/-!
## The credential-configuration module of the design

`secrets.hpp` contains no function: the operations below (`initialize`, the two
accessors and the error taxonomy) are described by the specification only.
-/

namespace CredentialStore

/-- Modelled from the spec: the entity `ConnectivityCredentials` of section 3
(the six raw attributes handed to `initialize`); the source has no such type,
only the six constants of `namespace Secrets`.  `brokerPort` is an unbounded
integer, as the raw input of scenario 4 (`70000`) requires. -/
structure ConnectivityCredentials where
  networkName : String
  networkPassphrase : String
  brokerHost : String
  brokerPort : Int
  brokerUsername : String
  brokerPassword : String
deriving DecidableEq, Repr

/-- Modelled from the spec: the field a `ConfigurationError` identifies
(sections 4.1 and 8); absent from the source. -/
inductive Field where
  | networkName
  | networkPassphrase
  | brokerHost
  | brokerPort
  | brokerPassword
deriving DecidableEq, Repr

/-- Modelled from the spec: the reason a `ConfigurationError` carries
(scenarios 2 to 5 of section 8); absent from the source. -/
inductive Reason where
  | empty
  | length
  | range
  | pairing
deriving DecidableEq, Repr

/-- Modelled from the spec: the error taxonomy of section 7; absent from the
source. -/
inductive Error where
  | ConfigurationError (field : Field) (reason : Reason)
  | NotInitialized
  | AlreadyInitialized
deriving DecidableEq, Repr

/-- Modelled from the spec: the five validation rules, in the fixed validation
order of section 4.1; absent from the source. -/
inductive Rule where
  | networkName
  | networkPassphrase
  | brokerHost
  | brokerPort
  | credentialPairing
deriving DecidableEq, Repr

/-- Modelled from the spec: position of a rule in the validation order
"(1) networkName ... (5) credential pairing rule" of section 4.1. -/
def Rule.order : Rule → Nat
  | .networkName => 1
  | .networkPassphrase => 2
  | .brokerHost => 3
  | .brokerPort => 4
  | .credentialPairing => 5

/-- Modelled from the spec: the field named when a rule is violated
(scenarios 2 to 5 of section 8; rule 5 names `brokerPassword`). -/
def Rule.field : Rule → Field
  | .networkName => .networkName
  | .networkPassphrase => .networkPassphrase
  | .brokerHost => .brokerHost
  | .brokerPort => .brokerPort
  | .credentialPairing => .brokerPassword

/-- Modelled from the spec: what each rule demands of the raw values, following
the attribute list of section 3: `networkName` non-empty and at most 32 bytes;
`networkPassphrase` 0 or 8 to 63 bytes; `brokerHost` non-empty; `brokerPort`
in [1, 65535]; no `brokerPassword` when `brokerUsername` is empty. -/
def Rule.holds : Rule → ConnectivityCredentials → Prop
  | .networkName, c => c.networkName ≠ "" ∧ strlen c.networkName ≤ 32
  | .networkPassphrase, c =>
      strlen c.networkPassphrase = 0 ∨
        (8 ≤ strlen c.networkPassphrase ∧ strlen c.networkPassphrase ≤ 63)
  | .brokerHost, c => c.brokerHost ≠ ""
  | .brokerPort, c => 1 ≤ c.brokerPort ∧ c.brokerPort ≤ 65535
  | .credentialPairing, c => c.brokerUsername = "" → c.brokerPassword = ""

instance (i : Rule) (c : ConnectivityCredentials) : Decidable (i.holds c) := by
  cases i <;> (simp only [Rule.holds]; exact inferInstance)

/-- Modelled from the spec: the validation pass of `initialize` (section 4.1,
"fail on first violation, short-circuit"), one check after the other in the
fixed order; absent from the source.  The reasons are those of scenarios 2 to 5;
an over-long `networkName` is reported with reason `length`. -/
def validate (c : ConnectivityCredentials) : Except Error Unit :=
  if c.networkName = "" then
    .error (.ConfigurationError .networkName .empty)
  else if 32 < strlen c.networkName then
    .error (.ConfigurationError .networkName .length)
  else if strlen c.networkPassphrase ≠ 0 ∧
      (strlen c.networkPassphrase < 8 ∨ 63 < strlen c.networkPassphrase) then
    .error (.ConfigurationError .networkPassphrase .length)
  else if c.brokerHost = "" then
    .error (.ConfigurationError .brokerHost .empty)
  else if c.brokerPort < 1 ∨ 65535 < c.brokerPort then
    .error (.ConfigurationError .brokerPort .range)
  else if c.brokerUsername = "" ∧ c.brokerPassword ≠ "" then
    .error (.ConfigurationError .brokerPassword .pairing)
  else
    .ok ()

/-- Modelled from the spec: the process-wide singleton of section 3, either
not yet initialized (`none`) or holding the one validated instance. -/
abbrev Store := Option ConnectivityCredentials

/-- Modelled from the spec: the operation `initialize` of section 4.1, as a
function from the store and the raw values to the outcome and the store
afterwards; absent from the source.  On an initialized store the call is
idempotent for identical values and fails with `AlreadyInitialized` otherwise
(a `ConfigurationError` is "never surfaced after successful initialization",
section 7); on an uninitialized store the values are validated and stored only
when every rule holds. -/
def initializeStore (s : Store) (raw : ConnectivityCredentials) :
    Except Error Unit × Store :=
  match s with
  | some cur =>
      if cur = raw then (.ok (), some cur) else (.error .AlreadyInitialized, some cur)
  | none =>
      match validate raw with
      | .error e => (.error e, none)
      | .ok _ => (.ok (), some raw)

/-- Modelled from the spec: the accessor `networkCredentials()` of section
4.1; absent from the source. -/
def networkCredentials (s : Store) : Except Error (String × String) :=
  match s with
  | none => .error .NotInitialized
  | some c => .ok (c.networkName, c.networkPassphrase)

/-- Modelled from the spec: the accessor `brokerEndpoint()` of section 4.1;
absent from the source. -/
def brokerEndpoint (s : Store) : Except Error (String × Int × String × String) :=
  match s with
  | none => .error .NotInitialized
  | some c => .ok (c.brokerHost, c.brokerPort, c.brokerUsername, c.brokerPassword)

/-- Raw values of scenario 1 of section 8. -/
def scenario1 : ConnectivityCredentials :=
  ⟨"HomeNet", "verylongpass1", "test.mosquitto.org", 1883, "", ""⟩

/-- Raw values violating rules 1, 2, 3, 4 and 5 at once. -/
def allViolated : ConnectivityCredentials :=
  ⟨"", "short", "", 70000, "", "secret"⟩

end CredentialStore

/-! ## The constants of `namespace Secrets` -/

/-- C1: the broker parameters of `namespace Secrets`, read as the tuple
(MQTTBroker, MQTTPort, MQTTUsername, MQTTPassword), are exactly
("test.mosquitto.org", 1883, "", ""). -/
theorem Secrets.broker_parameters_eq :
    (Secrets.MQTTBroker, Secrets.MQTTPort, Secrets.MQTTUsername, Secrets.MQTTPassword)
      = ("test.mosquitto.org", 1883, "", "") := by
  rfl

/-- C2: the broker port constant is an integer p with 1 <= p <= 65535. -/
theorem Secrets.MQTTPort_in_range :
    1 ≤ Secrets.MQTTPort ∧ Secrets.MQTTPort ≤ 65535 := by
  decide

/-- C3: the broker credential constants satisfy the pairing rule (an empty
username comes with an empty password); in the shipped table both are empty. -/
theorem Secrets.credentials_paired :
    (Secrets.MQTTUsername = "" → Secrets.MQTTPassword = "") ∧
      Secrets.MQTTUsername = "" ∧ Secrets.MQTTPassword = "" := by
  decide

/-- C4: the byte length n of the network name constant satisfies
1 <= n <= 32 (it is 9). -/
theorem Secrets.WiFiSSID_length :
    strlen Secrets.WiFiSSID = 9 ∧
      1 ≤ strlen Secrets.WiFiSSID ∧ strlen Secrets.WiFiSSID ≤ 32 := by
  decide

/-- C5: the byte length n of the network passphrase constant is 0 or
satisfies 8 <= n <= 63 (it is 9). -/
theorem Secrets.WiFiPassword_length :
    strlen Secrets.WiFiPassword = 9 ∧
      (strlen Secrets.WiFiPassword = 0 ∨
        (8 ≤ strlen Secrets.WiFiPassword ∧ strlen Secrets.WiFiPassword ≤ 63)) := by
  decide

/-- C6: the broker address constant is a non-empty string. -/
theorem Secrets.MQTTBroker_nonempty :
    Secrets.MQTTBroker ≠ "" ∧ 0 < strlen Secrets.MQTTBroker := by
  decide

/-! ## The type of `Secrets::MQTTPort` -/

/-- C9: for every value p of the type `uint16_t`, p lies in [1, 65535] if and
only if p is not 0; the upper bound holds for every value of the type. -/
theorem uint16_port_range_iff_ne_zero (p : Nat) (hp : IsUint16 p) :
    p ≤ 65535 ∧ ((1 ≤ p ∧ p ≤ 65535) ↔ p ≠ 0) := by
  have h : p < 65536 := by
    simpa [IsUint16, UINT16_SIZE] using hp
  omega

/-- Witness of C9 at the shipped port value 1883. -/
theorem uint16_port_range_iff_ne_zero_witness :
    IsUint16 Secrets.MQTTPort ∧ Secrets.MQTTPort ≤ 65535 ∧
      ((1 ≤ Secrets.MQTTPort ∧ Secrets.MQTTPort ≤ 65535) ↔ Secrets.MQTTPort ≠ 0) :=
  ⟨by decide, uint16_port_range_iff_ne_zero Secrets.MQTTPort (by decide)⟩

/-- C10: the port 70000 lies outside [1, 65535] and is not a value of
`uint16_t`; converted to `uint16_t` (reduced modulo 2^16) it becomes 4464,
which lies inside [1, 65535]. -/
theorem uint16_conversion_hides_out_of_range_port :
    ¬ ((1 : Int) ≤ 70000 ∧ (70000 : Int) ≤ 65535) ∧
      ¬ IsUint16 70000 ∧
      toUint16 70000 = 4464 ∧
      (1 ≤ toUint16 70000 ∧ toUint16 70000 ≤ 65535) := by
  decide

/-! ## `initialize` and the accessors -/

namespace CredentialStore

/-- C7: raw values that violate some rule i make `initialize` (on the store
not yet initialized) fail with a `ConfigurationError` naming the field of the
first violated rule k of the fixed validation order (networkName,
networkPassphrase, brokerHost, brokerPort, credential pairing), whatever other
rules are violated as well; the store stays uninitialized. -/
theorem initialize_names_first_violated_rule (raw : ConnectivityCredentials) (i : Rule)
    (hviol : ¬ i.holds raw) :
    ∃ (k : Rule) (reason : Reason),
      ¬ k.holds raw ∧ (∀ j : Rule, j.order < k.order → j.holds raw) ∧
        k.order ≤ i.order ∧
        initializeStore none raw = (.error (.ConfigurationError k.field reason), none) := by
  by_cases h1 : Rule.networkName.holds raw
  · by_cases h2 : Rule.networkPassphrase.holds raw
    · by_cases h3 : Rule.brokerHost.holds raw
      · by_cases h4 : Rule.brokerPort.holds raw
        · by_cases h5 : Rule.credentialPairing.holds raw
          · exfalso
            cases i <;> contradiction
          · refine ⟨.credentialPairing, .pairing, h5, ?_, ?_, ?_⟩
            · intro j hj
              cases j <;> first | assumption | (simp [Rule.order] at hj)
            · cases i <;> first | contradiction | (simp [Rule.order])
            · simp only [Rule.holds] at h1 h2 h3 h4 h5
              simp only [initializeStore, validate, Rule.field]
              have h2' : ¬ (strlen raw.networkPassphrase ≠ 0 ∧
                  (strlen raw.networkPassphrase < 8 ∨ 63 < strlen raw.networkPassphrase)) := by
                omega
              have h4' : ¬ (raw.brokerPort < 1 ∨ 65535 < raw.brokerPort) := by omega
              have h5' : raw.brokerUsername = "" ∧ raw.brokerPassword ≠ "" := by
                by_cases hu : raw.brokerUsername = ""
                · exact ⟨hu, fun hp => h5 (fun _ => hp)⟩
                · exact absurd (fun h => absurd h hu) h5
              rw [if_neg h1.1, if_neg (Nat.not_lt.mpr h1.2), if_neg h2', if_neg h3,
                if_neg h4', if_pos h5']
        · refine ⟨.brokerPort, .range, h4, ?_, ?_, ?_⟩
          · intro j hj
            cases j <;> first | assumption | (simp [Rule.order] at hj)
          · cases i <;> first | contradiction | (simp [Rule.order])
          · simp only [Rule.holds] at h1 h2 h3 h4
            simp only [initializeStore, validate, Rule.field]
            have h2' : ¬ (strlen raw.networkPassphrase ≠ 0 ∧
                (strlen raw.networkPassphrase < 8 ∨ 63 < strlen raw.networkPassphrase)) := by
              omega
            have h4' : raw.brokerPort < 1 ∨ 65535 < raw.brokerPort := by omega
            rw [if_neg h1.1, if_neg (Nat.not_lt.mpr h1.2), if_neg h2', if_neg h3,
              if_pos h4']
      · refine ⟨.brokerHost, .empty, h3, ?_, ?_, ?_⟩
        · intro j hj
          cases j <;> first | assumption | (simp [Rule.order] at hj)
        · cases i <;> first | contradiction | (simp [Rule.order])
        · simp only [Rule.holds] at h1 h2 h3
          simp only [initializeStore, validate, Rule.field]
          have h2' : ¬ (strlen raw.networkPassphrase ≠ 0 ∧
              (strlen raw.networkPassphrase < 8 ∨ 63 < strlen raw.networkPassphrase)) := by
            omega
          have h3' : raw.brokerHost = "" := not_not.mp h3
          rw [if_neg h1.1, if_neg (Nat.not_lt.mpr h1.2), if_neg h2', if_pos h3']
    · refine ⟨.networkPassphrase, .length, h2, ?_, ?_, ?_⟩
      · intro j hj
        cases j <;> first | assumption | (simp [Rule.order] at hj)
      · cases i <;> first | contradiction | (simp [Rule.order])
      · simp only [Rule.holds] at h1 h2
        simp only [initializeStore, validate, Rule.field]
        have h2' : strlen raw.networkPassphrase ≠ 0 ∧
            (strlen raw.networkPassphrase < 8 ∨ 63 < strlen raw.networkPassphrase) := by
          omega
        rw [if_neg h1.1, if_neg (Nat.not_lt.mpr h1.2), if_pos h2']
  · by_cases he : raw.networkName = ""
    · refine ⟨.networkName, .empty, h1, ?_, ?_, ?_⟩
      · intro j hj
        cases j <;> simp [Rule.order] at hj
      · cases i <;> simp [Rule.order]
      · simp only [initializeStore, validate, Rule.field]
        rw [if_pos he]
    · refine ⟨.networkName, .length, h1, ?_, ?_, ?_⟩
      · intro j hj
        cases j <;> simp [Rule.order] at hj
      · cases i <;> simp [Rule.order]
      · simp only [Rule.holds] at h1
        simp only [initializeStore, validate, Rule.field]
        have hl : 32 < strlen raw.networkName := by
          by_contra hc
          exact h1 ⟨he, Nat.not_lt.mp hc⟩
        rw [if_neg he, if_pos hl]

/-- Witness of C7: the values ("", "short", "", 70000, "", "secret") violate
all five rules, rule 4 among them. -/
theorem initialize_names_first_violated_rule_witness :
    ¬ Rule.brokerPort.holds allViolated ∧
      ∃ (k : Rule) (reason : Reason),
        ¬ k.holds allViolated ∧ (∀ j : Rule, j.order < k.order → j.holds allViolated) ∧
          k.order ≤ Rule.brokerPort.order ∧
          initializeStore none allViolated
            = (.error (.ConfigurationError k.field reason), none) :=
  ⟨by decide, initialize_names_first_violated_rule allViolated .brokerPort (by decide)⟩

/-- C8: for raw values that satisfy the five validation rules, `initialize`
(on the store not yet initialized) succeeds, and `networkCredentials()` and
`brokerEndpoint()` called on the resulting store return exactly the values
supplied. -/
theorem initialize_valid_then_accessors (raw : ConnectivityCredentials)
    (hvalid : ∀ i : Rule, i.holds raw) :
    (initializeStore none raw).1 = .ok () ∧
      networkCredentials (initializeStore none raw).2
        = .ok (raw.networkName, raw.networkPassphrase) ∧
      brokerEndpoint (initializeStore none raw).2
        = .ok (raw.brokerHost, raw.brokerPort, raw.brokerUsername, raw.brokerPassword) := by
  have h1 := hvalid .networkName
  have h2 := hvalid .networkPassphrase
  have h3 := hvalid .brokerHost
  have h4 := hvalid .brokerPort
  have h5 := hvalid .credentialPairing
  simp only [Rule.holds] at h1 h2 h3 h4 h5
  have h2' : ¬ (strlen raw.networkPassphrase ≠ 0 ∧
      (strlen raw.networkPassphrase < 8 ∨ 63 < strlen raw.networkPassphrase)) := by
    omega
  have h4' : ¬ (raw.brokerPort < 1 ∨ 65535 < raw.brokerPort) := by omega
  have h5' : ¬ (raw.brokerUsername = "" ∧ raw.brokerPassword ≠ "") :=
    fun h => h.2 (h5 h.1)
  have hv : validate raw = .ok () := by
    simp only [validate]
    rw [if_neg h1.1, if_neg (Nat.not_lt.mpr h1.2), if_neg h2', if_neg h3, if_neg h4',
      if_neg h5']
  simp only [initializeStore, hv, networkCredentials, brokerEndpoint, and_self]

/-- Witness of C8: scenario 1 of the specification. -/
theorem initialize_valid_then_accessors_witness :
    (∀ i : Rule, i.holds scenario1) ∧
      (initializeStore none scenario1).1 = .ok () ∧
      networkCredentials (initializeStore none scenario1).2
        = .ok ("HomeNet", "verylongpass1") ∧
      brokerEndpoint (initializeStore none scenario1).2
        = .ok ("test.mosquitto.org", 1883, "", "") :=
  ⟨fun i => by cases i <;> decide,
    initialize_valid_then_accessors scenario1 (fun i => by cases i <;> decide)⟩

end CredentialStore
